import Mathlib

/-!
Shallow embedding of `remoting/protocol/libjingle_transport_factory.cc`
(Chromium remoting protocol, peer-to-peer stream-transport establishment).

The C++ class `LibjingleStreamTransport` is modelled as a record of its
data members; each method becomes a Lean function from the record (plus the
method's arguments) to an updated record together with a log of externally
observable events (invocations of the stored completion callback, the
hand-off of the raw socket to the authenticator, the configuration applied
to the PseudoTCP adapter).  External collaborators (port allocator,
P2PTransportChannel, PseudoTcpAdapter) are modelled only through the state
the orchestration file stores in them.
-/

namespace remoting
namespace protocol

namespace net

/-- Error codes from `net/base/net_errors.h` used by this file. -/
def OK : Int := 0

/-- `net::ERR_IO_PENDING`: the operation completes asynchronously. -/
def ERR_IO_PENDING : Int := -1

/-- `net::ERR_FAILED`: a generic failure code (a concrete non-OK value). -/
def ERR_FAILED : Int := -2

end net

/-- `kTcpAckDelayMilliseconds` from the anonymous namespace of the source. -/
def kTcpAckDelayMilliseconds : Nat := 10

/-- `kTcpReceiveBufferSize = 256 * 1024` from the source. -/
def kTcpReceiveBufferSize : Nat := 256 * 1024

/-- `kTcpSendBufferSize = kTcpReceiveBufferSize + 30 * 1024` from the source. -/
def kTcpSendBufferSize : Nat := kTcpReceiveBufferSize + 30 * 1024

/-- Flag bits of `cricket::PortAllocator` (libjingle header, external
collaborator); only distinctness of the bits matters here. -/
def PORTALLOCATOR_DISABLE_UDP : Nat := 1

/-- `cricket::PORTALLOCATOR_DISABLE_STUN` flag bit. -/
def PORTALLOCATOR_DISABLE_STUN : Nat := 2

/-- `cricket::PORTALLOCATOR_DISABLE_RELAY` flag bit. -/
def PORTALLOCATOR_DISABLE_RELAY : Nat := 4

/-- `cricket::PORTALLOCATOR_DISABLE_TCP` flag bit. -/
def PORTALLOCATOR_DISABLE_TCP : Nat := 8

/-- `TransportConfig` (remoting/protocol/transport_config.h): the fields this
file reads — `nat_traversal`, `min_port`, `max_port`. -/
structure TransportConfig where
  nat_traversal : Bool
  min_port : Nat
  max_port : Nat
deriving DecidableEq, Repr

/-- The two port-allocator classes the source chooses between:
`cricket::HttpPortAllocator` (supports reflexive/relay gathering) and
`cricket::BasicPortAllocator` (local candidates only). -/
inductive PortAllocatorKind where
  | http
  | basic
deriving DecidableEq, Repr

/-- The state the source stores into its `cricket::PortAllocator`:
which class was instantiated, the flag bitmask, and the port range. -/
structure PortAllocator where
  kind : PortAllocatorKind
  flags : Nat
  min_port : Nat
  max_port : Nat
deriving DecidableEq, Repr

/-- `PortAllocator::set_flags`. -/
def set_flags (a : PortAllocator) (flags : Nat) : PortAllocator :=
  { a with flags := flags }

/-- `PortAllocator::SetPortRange`. -/
def SetPortRange (a : PortAllocator) (min_port max_port : Nat) : PortAllocator :=
  { a with min_port := min_port, max_port := max_port }

/-- Does the allocator flag bitmask contain the given flag bit? -/
def hasFlag (a : PortAllocator) (flag : Nat) : Bool :=
  a.flags &&& flag != 0

/-- The state the source stores into its `cricket::P2PTransportChannel`:
the channel name and the remote candidates forwarded via `OnCandidate`,
in call order.  Candidates are abstracted as numeric identifiers. -/
structure P2PTransportChannel where
  name : String
  candidates : List Nat
deriving DecidableEq, Repr

/-- `P2PTransportChannel::OnCandidate`: append the remote candidate. -/
def OnCandidate (ch : P2PTransportChannel) (candidate : Nat) : P2PTransportChannel :=
  { ch with candidates := ch.candidates ++ [candidate] }

/-- The state the source stores into its `jingle_glue::PseudoTcpAdapter`
via the four setters called in `Connect`. -/
structure PseudoTcpAdapter where
  sendBufferSize : Nat
  receiveBufferSize : Nat
  noDelay : Bool
  ackDelayMs : Nat
deriving DecidableEq, Repr

/-- `PseudoTcpAdapter::SetSendBufferSize`. -/
def SetSendBufferSize (s : PseudoTcpAdapter) (n : Nat) : PseudoTcpAdapter :=
  { s with sendBufferSize := n }

/-- `PseudoTcpAdapter::SetReceiveBufferSize`. -/
def SetReceiveBufferSize (s : PseudoTcpAdapter) (n : Nat) : PseudoTcpAdapter :=
  { s with receiveBufferSize := n }

/-- `PseudoTcpAdapter::SetNoDelay`. -/
def SetNoDelay (s : PseudoTcpAdapter) (b : Bool) : PseudoTcpAdapter :=
  { s with noDelay := b }

/-- `PseudoTcpAdapter::SetAckDelay`. -/
def SetAckDelay (s : PseudoTcpAdapter) (ms : Nat) : PseudoTcpAdapter :=
  { s with ackDelayMs := ms }

/-- The data members of `LibjingleStreamTransport`.  Owning `scoped_ptr`
members are `Option`s (`none` = null pointer); the stored completion
callback `callback_` and the `authenticator_` pointer are tracked by
whether they are non-null (`callback_ = true` means a callback is stored;
the values a callback would capture live in the event log instead). -/
structure LibjingleStreamTransport where
  network_manager_ : Nat
  socket_factory_ : Nat
  name_ : String
  config_ : TransportConfig
  event_handler_ : Bool
  callback_ : Bool
  authenticator_ : Bool
  port_allocator_ : Option PortAllocator
  channel_ : Option P2PTransportChannel
  socket_ : Option PseudoTcpAdapter
deriving DecidableEq, Repr

/-- The constructor `LibjingleStreamTransport(network_manager, socket_factory)`:
every owning pointer starts null, `name_` is the empty string, and the two
shared dependencies are stored. -/
def createTransport (network_manager socket_factory : Nat) : LibjingleStreamTransport :=
  { network_manager_ := network_manager
    socket_factory_ := socket_factory
    name_ := ""
    config_ := { nat_traversal := false, min_port := 0, max_port := 0 }
    event_handler_ := false
    callback_ := false
    authenticator_ := false
    port_allocator_ := none
    channel_ := none
    socket_ := none }

/-- `LibjingleStreamTransport::Initialize(name, config, event_handler,
authenticator)`: stores the four arguments. -/
def Initialize (t : LibjingleStreamTransport) (name : String)
    (config : TransportConfig) (event_handler authenticator : Bool) :
    LibjingleStreamTransport :=
  { t with name_ := name, config_ := config,
           event_handler_ := event_handler, authenticator_ := authenticator }

/-- `LibjingleStreamTransport::is_connected`: `return callback_.is_null();`. -/
def is_connected (t : LibjingleStreamTransport) : Bool :=
  !t.callback_

/-- Liveness of the four owned resources at a given moment, as observable
by the caller from inside the completion callback. -/
structure ResourceSnapshot where
  allocatorLive : Bool
  channelLive : Bool
  adapterLive : Bool
  authenticatorLive : Bool
deriving DecidableEq, Repr

/-- Snapshot of the transport's owned resources. -/
def snapshot (t : LibjingleStreamTransport) : ResourceSnapshot :=
  { allocatorLive := t.port_allocator_.isSome
    channelLive := t.channel_.isSome
    adapterLive := t.socket_.isSome
    authenticatorLive := t.authenticator_ }

/-- Externally observable events of the transport during a connect attempt:
the configuration applied to the PseudoTCP adapter, the hand-off of the raw
socket to `ChannelAuthenticator::SecureAndAuthenticate`, and each run of
the stored completion callback (with the delivered socket — `none` is the
null socket — and the resource liveness the caller observes at that
moment). -/
inductive TransportEvent where
  | adapterConfigured (sendBuf recvBuf : Nat) (noDelay : Bool) (ackDelayMs : Nat)
  | secureAndAuthenticate
  | runCallback (socket : Option Nat) (res : ResourceSnapshot)
deriving DecidableEq, Repr

/-- `LibjingleStreamTransport::NotifyConnected(socket)`:
`callback_.Run(socket.Pass()); callback_.Reset();`. -/
def NotifyConnected (t : LibjingleStreamTransport) (socket : Option Nat) :
    LibjingleStreamTransport × List TransportEvent :=
  ({ t with callback_ := false },
   [TransportEvent.runCallback socket (snapshot t)])

/-- `LibjingleStreamTransport::NotifyConnectFailed()`:
`socket_.reset(); channel_.reset(); authenticator_.reset();
NotifyConnected(scoped_ptr<net::StreamSocket>(NULL));`.
Note: `port_allocator_` is not reset here. -/
def NotifyConnectFailed (t : LibjingleStreamTransport) :
    LibjingleStreamTransport × List TransportEvent :=
  NotifyConnected
    { t with socket_ := none, channel_ := none, authenticator_ := false } none

/-- `LibjingleStreamTransport::OnAuthenticationDone(error, socket)`. -/
def OnAuthenticationDone (t : LibjingleStreamTransport) (error : Int)
    (socket : Option Nat) : LibjingleStreamTransport × List TransportEvent :=
  if error ≠ net.OK then
    NotifyConnectFailed t
  else
    NotifyConnected t socket

/-- `LibjingleStreamTransport::OnTcpConnected(result)`: on failure, notify;
on success, pass ownership of `socket_` to the authenticator
(`socket_.PassAs<net::StreamSocket>()` nulls `socket_`) and invoke
`SecureAndAuthenticate`. -/
def OnTcpConnected (t : LibjingleStreamTransport) (result : Int) :
    LibjingleStreamTransport × List TransportEvent :=
  if result ≠ net.OK then
    NotifyConnectFailed t
  else
    ({ t with socket_ := none }, [TransportEvent.secureAndAuthenticate])

/-- `LibjingleStreamTransport::OnChannelDestroyed()`: `if (is_connected())
delete this;`.  Returns `none` when the transport deletes itself. -/
def OnChannelDestroyed (t : LibjingleStreamTransport) :
    Option LibjingleStreamTransport :=
  if is_connected t then none else some t

/-- `LibjingleStreamTransport::AddRemoteCandidate(candidate)`:
`channel_->OnCandidate(candidate);`.  A null `channel_` is a null-pointer
dereference, modelled as `none` (crash). -/
def AddRemoteCandidate (t : LibjingleStreamTransport) (candidate : Nat) :
    Option LibjingleStreamTransport :=
  match t.channel_ with
  | none => none
  | some ch => some { t with channel_ := some (OnCandidate ch candidate) }

/-- `LibjingleStreamTransport::Connect(callback)`.  `syncResult` is the value
`socket_->Connect(...)` returns: when it is not `net::ERR_IO_PENDING` the
source immediately calls `OnTcpConnected(result)`; otherwise the adapter
completes later (see `connectRun`). -/
def Connect (t : LibjingleStreamTransport) (syncResult : Int) :
    LibjingleStreamTransport × List TransportEvent :=
  let t1 := { t with callback_ := true }
  let port_allocator_flags := PORTALLOCATOR_DISABLE_TCP
  let allocAndFlags :=
    if t1.config_.nat_traversal then
      (({ kind := PortAllocatorKind.http, flags := 0,
          min_port := 0, max_port := 0 } : PortAllocator),
       port_allocator_flags)
    else
      (({ kind := PortAllocatorKind.basic, flags := 0,
          min_port := 0, max_port := 0 } : PortAllocator),
       port_allocator_flags ||| PORTALLOCATOR_DISABLE_STUN |||
         PORTALLOCATOR_DISABLE_RELAY)
  let pa := SetPortRange (set_flags allocAndFlags.1 allocAndFlags.2)
    t1.config_.min_port t1.config_.max_port
  let t2 := { t1 with port_allocator_ := some pa }
  let t3 := { t2 with channel_ := some { name := t2.name_, candidates := [] } }
  let sock := SetAckDelay
    (SetNoDelay
      (SetReceiveBufferSize
        (SetSendBufferSize
          { sendBufferSize := 0, receiveBufferSize := 0,
            noDelay := false, ackDelayMs := 0 }
          kTcpSendBufferSize)
        kTcpReceiveBufferSize)
      true)
    kTcpAckDelayMilliseconds
  let t4 := { t3 with socket_ := some sock }
  let events := [TransportEvent.adapterConfigured sock.sendBufferSize
    sock.receiveBufferSize sock.noDelay sock.ackDelayMs]
  if syncResult ≠ net.ERR_IO_PENDING then
    let r := OnTcpConnected t4 syncResult
    (r.1, events ++ r.2)
  else
    (t4, events)

/-- A complete connect attempt: `Connect` with synchronous result
`syncResult`; when that was pending, the adapter later completes with
`asyncResult`; when the resulting TCP-level result was OK, the
authenticator later completes with `(authError, authSocket)`.  The event
sequencing mirrors the source: each completion feeds the corresponding
handler exactly once. -/
def connectRun (t : LibjingleStreamTransport)
    (syncResult asyncResult authError : Int) (authSocket : Option Nat) :
    LibjingleStreamTransport × List TransportEvent :=
  let r1 := Connect t syncResult
  let r2 :=
    if syncResult = net.ERR_IO_PENDING then
      let r := OnTcpConnected r1.1 asyncResult
      (r.1, r1.2 ++ r.2)
    else
      r1
  let tcpResult := if syncResult = net.ERR_IO_PENDING then asyncResult else syncResult
  if tcpResult = net.OK then
    let r := OnAuthenticationDone r2.1 authError authSocket
    (r.1, r2.2 ++ r.2)
  else
    r2

/-- The sockets delivered through the completion callback, in order. -/
def deliveries (events : List TransportEvent) : List (Option Nat) :=
  events.filterMap fun e =>
    match e with
    | TransportEvent.runCallback s _ => some s
    | _ => none

/-- The resource snapshots the caller observes at each failure
(null-socket) delivery. -/
def failureSnapshots (events : List TransportEvent) : List ResourceSnapshot :=
  events.filterMap fun e =>
    match e with
    | TransportEvent.runCallback none res => some res
    | _ => none

/-- The adapter configurations applied during the run. -/
def adapterConfigs (events : List TransportEvent) :
    List (Nat × Nat × Bool × Nat) :=
  events.filterMap fun e =>
    match e with
    | TransportEvent.adapterConfigured sb rb nd ad => some (sb, rb, nd, ad)
    | _ => none

/-- Did the run hand the raw socket to the authenticator? -/
def authenticateInvoked (events : List TransportEvent) : Bool :=
  events.any fun e =>
    match e with
    | TransportEvent.secureAndAuthenticate => true
    | _ => false

/-- The data members of `LibjingleTransportFactory`: the shared
`talk_base::NetworkManager` and `talk_base::PacketSocketFactory`. -/
structure LibjingleTransportFactory where
  network_manager_ : Nat
  socket_factory_ : Nat
deriving DecidableEq, Repr

/-- `LibjingleTransportFactory::CreateStreamTransport`: a fresh
`LibjingleStreamTransport` over the factory's shared dependencies. -/
def CreateStreamTransport (f : LibjingleTransportFactory) :
    LibjingleStreamTransport :=
  createTransport f.network_manager_ f.socket_factory_

/-- The datagram-transport type is never constructed by this factory. -/
inductive DatagramTransport where
deriving DecidableEq

/-- `LibjingleTransportFactory::CreateDatagramTransport`:
`NOTIMPLEMENTED(); return scoped_ptr<DatagramTransport>(NULL);` — the
`Bool` records that NOTIMPLEMENTED was reported. -/
def CreateDatagramTransport (_f : LibjingleTransportFactory) :
    Option DatagramTransport × Bool :=
  (none, true)

/-- A transport as produced by `Initialize` on a freshly constructed
instance: event handler and authenticator supplied (non-null). -/
def initializedTransport (nm sf : Nat) (name : String) (cfg : TransportConfig) :
    LibjingleStreamTransport :=
  Initialize (createTransport nm sf) name cfg true true

/-- `AddRemoteCandidate` iterated over a list of candidates, in call order;
`none` as soon as one call crashes. -/
def addAll (t : LibjingleStreamTransport) (cs : List Nat) :
    Option LibjingleStreamTransport :=
  match cs with
  | [] => some t
  | c :: rest =>
    match AddRemoteCandidate t c with
    | none => none
    | some t2 => addAll t2 rest

/-- Neither completion handler ever touches `port_allocator_`. -/
theorem OnTcpConnected_allocator (t : LibjingleStreamTransport) (r : Int) :
    (OnTcpConnected t r).1.port_allocator_ = t.port_allocator_ := by
  by_cases h : r = net.OK <;>
    simp [OnTcpConnected, NotifyConnectFailed, NotifyConnected, h]

/-- The allocator stored by `Connect`, characterized: raw value of kind,
flags and port range as a function of the config. -/
theorem Connect_allocator (t : LibjingleStreamTransport) (s : Int) :
    (Connect t s).1.port_allocator_ =
      some (if t.config_.nat_traversal then
              { kind := PortAllocatorKind.http,
                flags := PORTALLOCATOR_DISABLE_TCP,
                min_port := t.config_.min_port, max_port := t.config_.max_port }
            else
              { kind := PortAllocatorKind.basic,
                flags := PORTALLOCATOR_DISABLE_TCP ||| PORTALLOCATOR_DISABLE_STUN
                  ||| PORTALLOCATOR_DISABLE_RELAY,
                min_port := t.config_.min_port,
                max_port := t.config_.max_port }) := by
  by_cases hn : t.config_.nat_traversal <;>
  by_cases hs : s = net.ERR_IO_PENDING <;>
  by_cases hok : s = net.OK <;>
  simp_all [Connect, OnTcpConnected, NotifyConnectFailed, NotifyConnected,
    set_flags, SetPortRange, net.OK, net.ERR_IO_PENDING]

/-- The completion handlers emit no adapter-configuration event. -/
theorem OnTcpConnected_adapterConfigs (t : LibjingleStreamTransport) (r : Int) :
    adapterConfigs (OnTcpConnected t r).2 = [] := by
  by_cases h : r = net.OK <;>
    simp [OnTcpConnected, NotifyConnectFailed, NotifyConnected, h,
      adapterConfigs]

/-- C10: on a freshly constructed Stream Transport, before `Initialize` or
`Connect` and before any completion callback could have been delivered,
`is_connected()` already returns true, because the callback slot used as
the sentinel is null both before `Connect` stores it and after the
one-shot delivery (`NotifyConnected`) resets it. -/
theorem C10_fresh_transport_reports_connected (nm sf : Nat) :
    is_connected (createTransport nm sf) = true
    ∧ (createTransport nm sf).callback_ = false
    ∧ (∀ (t : LibjingleStreamTransport) (s : Option Nat),
        (NotifyConnected t s).1.callback_ = false
        ∧ is_connected (NotifyConnected t s).1 = true) := by
  exact ⟨rfl, rfl, fun t s => ⟨rfl, rfl⟩⟩

/-- C9: `CreateStreamTransport` returns a new, uninitialized transport bound
to the factory's shared network manager and socket factory (a pure
allocation — total, no other effect), and `CreateDatagramTransport`
reports not-implemented and returns a null transport. -/
theorem C9_factory_contract (nm sf : Nat) :
    let f : LibjingleTransportFactory :=
      { network_manager_ := nm, socket_factory_ := sf }
    (CreateStreamTransport f).network_manager_ = f.network_manager_
    ∧ (CreateStreamTransport f).socket_factory_ = f.socket_factory_
    ∧ (CreateStreamTransport f).name_ = ""
    ∧ (CreateStreamTransport f).callback_ = false
    ∧ (CreateStreamTransport f).event_handler_ = false
    ∧ (CreateStreamTransport f).authenticator_ = false
    ∧ (CreateStreamTransport f).port_allocator_ = none
    ∧ (CreateStreamTransport f).channel_ = none
    ∧ (CreateStreamTransport f).socket_ = none
    ∧ CreateDatagramTransport f = (none, true) := by
  exact ⟨rfl, rfl, rfl, rfl, rfl, rfl, rfl, rfl, rfl, rfl⟩

/-- C6: the reliability adapter is configured identically on every `Connect`
call, whatever the config and whatever the synchronous connect result:
send buffer 292864 = 262144 + 30720 bytes, receive buffer 262144 bytes,
Nagle disabled (no-delay true), 10 ms ack-delay target. -/
theorem C6_adapter_configuration_deterministic (nm sf : Nat) (name : String)
    (cfg : TransportConfig) (syncResult : Int) :
    adapterConfigs (Connect (initializedTransport nm sf name cfg) syncResult).2
      = [(292864, 262144, true, 10)]
    ∧ kTcpSendBufferSize = kTcpReceiveBufferSize + 30720
    ∧ kTcpReceiveBufferSize = 262144
    ∧ kTcpAckDelayMilliseconds = 10 := by
  refine ⟨?_, by decide, by decide, by decide⟩
  by_cases hs : syncResult = net.ERR_IO_PENDING <;>
  by_cases hok : syncResult = net.OK <;>
  simp_all [Connect, OnTcpConnected, NotifyConnectFailed, NotifyConnected,
    adapterConfigs, SetSendBufferSize, SetReceiveBufferSize, SetNoDelay,
    SetAckDelay, kTcpSendBufferSize, kTcpReceiveBufferSize,
    kTcpAckDelayMilliseconds, net.OK, net.ERR_IO_PENDING]

/-- C5: on every `Connect` call the allocator has the raw-TCP candidate path
disabled unconditionally; the STUN (server-reflexive) and relay paths are
disabled exactly when NAT traversal is off, in which case the local-only
`BasicPortAllocator` is used; with NAT traversal on, the reflexive/relay
capable `HttpPortAllocator` is selected. -/
theorem C5_allocator_selection_and_flags (nm sf : Nat) (name : String)
    (cfg : TransportConfig) (syncResult : Int) :
    ((Connect (initializedTransport nm sf name cfg) syncResult).1.port_allocator_.map
      fun a => (hasFlag a PORTALLOCATOR_DISABLE_TCP,
                hasFlag a PORTALLOCATOR_DISABLE_STUN,
                hasFlag a PORTALLOCATOR_DISABLE_RELAY,
                a.kind))
    = some (true, !cfg.nat_traversal, !cfg.nat_traversal,
            if cfg.nat_traversal then PortAllocatorKind.http
            else PortAllocatorKind.basic) := by
  have h := Connect_allocator (initializedTransport nm sf name cfg) syncResult
  rw [h]
  by_cases hn : cfg.nat_traversal <;>
    simp [initializedTransport, Initialize, createTransport, hn, hasFlag,
      PORTALLOCATOR_DISABLE_TCP, PORTALLOCATOR_DISABLE_STUN,
      PORTALLOCATOR_DISABLE_RELAY]
  all_goals decide

/-- C3 counterexample: on a freshly constructed-then-initialized transport,
before `Connect` and before any completion callback could possibly have
been delivered, `is_connected()` already reports true — refuting "before
delivery it reports false" on this concrete input. -/
theorem C3_counterexample :
    is_connected (initializedTransport 0 0 "chan"
      { nat_traversal := false, min_port := 0, max_port := 0 }) = true := by
  rfl

/-- C3 amended: `is_connected()` returns true exactly when the stored
callback slot is null — true from construction until `Connect` stores the
callback, false from `Connect` until the one-shot delivery, and true again
after the delivery (whatever the outcome). -/
theorem C3_amended_sentinel_semantics (nm sf : Nat) (name : String)
    (cfg : TransportConfig) (asyncResult authError : Int) (authSock : Nat) :
    is_connected (initializedTransport nm sf name cfg) = true
    ∧ is_connected
        (Connect (initializedTransport nm sf name cfg) net.ERR_IO_PENDING).1
      = false
    ∧ is_connected
        (OnTcpConnected
          (Connect (initializedTransport nm sf name cfg) net.ERR_IO_PENDING).1
          net.OK).1
      = false
    ∧ is_connected
        (connectRun (initializedTransport nm sf name cfg) net.ERR_IO_PENDING
          asyncResult authError (some authSock)).1
      = true := by
  refine ⟨rfl, ?_, ?_, ?_⟩
  · simp [Connect, is_connected, net.ERR_IO_PENDING]
  · simp [Connect, OnTcpConnected, is_connected, net.ERR_IO_PENDING, net.OK]
  · by_cases ha : asyncResult = net.OK <;>
    by_cases he : authError = net.OK <;>
    simp_all [connectRun, Connect, OnTcpConnected, OnAuthenticationDone,
      NotifyConnectFailed, NotifyConnected, is_connected, net.OK,
      net.ERR_IO_PENDING]

/-- C2 counterexample: a reliability-handshake failure delivers the failure
callback while the candidate allocator is still live — refuting "all four
owned resources are released before the failure callback is invoked". -/
theorem C2_counterexample :
    failureSnapshots (connectRun (initializedTransport 0 0 "chan"
        { nat_traversal := false, min_port := 0, max_port := 0 })
      net.ERR_FAILED 0 net.OK none).2
    = [{ allocatorLive := true, channelLive := false,
         adapterLive := false, authenticatorLive := false }] := by
  rfl

/-- C2 amended: on every connection failure (reliability handshake or
authentication), the ICE transport channel, the reliability adapter and
the authenticator are released before the failure callback runs, but the
candidate allocator is not — the caller observes it still live.
(`authSock` ranges over the non-null sockets a conforming authenticator
delivers on success.) -/
theorem C2_amended_failure_releases (nm sf : Nat) (name : String)
    (cfg : TransportConfig) (syncResult asyncResult authError : Int)
    (authSock : Nat) :
    ((failureSnapshots (connectRun (initializedTransport nm sf name cfg)
        syncResult asyncResult authError (some authSock)).2).all
      fun res => res == { allocatorLive := true, channelLive := false,
                          adapterLive := false, authenticatorLive := false })
    = true := by
  by_cases hs : syncResult = net.ERR_IO_PENDING <;>
  by_cases ha : asyncResult = net.OK <;>
  by_cases hok : syncResult = net.OK <;>
  by_cases he : authError = net.OK <;>
  simp_all [connectRun, Connect, OnTcpConnected, OnAuthenticationDone,
    NotifyConnectFailed, NotifyConnected, failureSnapshots, snapshot,
    net.OK, net.ERR_IO_PENDING]

/-- C8 counterexample: before `Connect` (hence before any completion
callback has fired) the channel does not exist, and `AddRemoteCandidate`
dereferences the null `channel_` — modelled as a crash (`none`). -/
theorem C8_counterexample :
    AddRemoteCandidate (initializedTransport 0 0 "chan"
      { nat_traversal := false, min_port := 0, max_port := 0 }) 7 = none := by
  rfl

/-- While the channel is live, iterating `AddRemoteCandidate` never crashes
and appends every candidate to the channel in call order. -/
theorem addAll_forwards_in_order (cs : List Nat) :
    ∀ (t : LibjingleStreamTransport) (ch : P2PTransportChannel),
      t.channel_ = some ch →
      addAll t cs =
        some { t with
               channel_ := some { ch with candidates := ch.candidates ++ cs } } := by
  induction cs with
  | nil =>
    intro t ch h
    cases t
    simp_all [addAll]
  | cons c rest ih =>
    intro t ch h
    have step := ih { t with channel_ := some (OnCandidate ch c) }
      (OnCandidate ch c) rfl
    cases t
    simp_all [addAll, AddRemoteCandidate, OnCandidate]

/-- C8 amended: after `Connect` has created the ICE channel and before the
completion callback fires (both in the `Connecting` stage and in the
`Authenticating` stage), any sequence of `AddRemoteCandidate` calls
never crashes and the candidates reach the ICE layer in call order;
before `Connect`, however, the call dereferences a null channel. -/
theorem C8_amended_candidates_forwarded (nm sf : Nat) (name : String)
    (cfg : TransportConfig) (cs : List Nat) :
    ((addAll (Connect (initializedTransport nm sf name cfg)
        net.ERR_IO_PENDING).1 cs).map
      fun t => t.channel_.map fun ch => ch.candidates)
      = some (some cs)
    ∧ ((addAll (OnTcpConnected
        (Connect (initializedTransport nm sf name cfg) net.ERR_IO_PENDING).1
        net.OK).1 cs).map
      fun t => t.channel_.map fun ch => ch.candidates)
      = some (some cs) := by
  constructor
  · have h := addAll_forwards_in_order cs
      (Connect (initializedTransport nm sf name cfg) net.ERR_IO_PENDING).1
      { name := name, candidates := [] }
      (by simp [Connect, initializedTransport, Initialize, createTransport,
        net.ERR_IO_PENDING])
    rw [h]
    simp
  · have h := addAll_forwards_in_order cs
      (OnTcpConnected
        (Connect (initializedTransport nm sf name cfg) net.ERR_IO_PENDING).1
        net.OK).1
      { name := name, candidates := [] }
      (by simp [Connect, OnTcpConnected, initializedTransport, Initialize,
        createTransport, net.ERR_IO_PENDING, net.OK])
    rw [h]
    simp

/-- C7: when the adapter's connect handshake completes synchronously inside
`Connect` (result other than `ERR_IO_PENDING`), the transport proceeds
immediately with that result — handing the raw socket to the authenticator
on `OK`, or delivering the null-socket failure on an error — and when the
result is pending it performs neither and waits for the completion
event. -/
theorem C7_synchronous_completion (nm sf : Nat) (name : String)
    (cfg : TransportConfig) (syncResult : Int) :
    (authenticateInvoked
        (Connect (initializedTransport nm sf name cfg) net.OK).2 = true
      ∧ deliveries (Connect (initializedTransport nm sf name cfg) net.OK).2 = [])
    ∧ (syncResult ≠ net.ERR_IO_PENDING → syncResult ≠ net.OK →
        deliveries (Connect (initializedTransport nm sf name cfg) syncResult).2
          = [none]
        ∧ authenticateInvoked
            (Connect (initializedTransport nm sf name cfg) syncResult).2 = false)
    ∧ (authenticateInvoked
        (Connect (initializedTransport nm sf name cfg) net.ERR_IO_PENDING).2
          = false
      ∧ deliveries
          (Connect (initializedTransport nm sf name cfg) net.ERR_IO_PENDING).2
          = []) := by
  refine ⟨⟨?_, ?_⟩, fun hs hok => ⟨?_, ?_⟩, ?_, ?_⟩ <;>
    simp_all [Connect, OnTcpConnected, NotifyConnectFailed, NotifyConnected,
      authenticateInvoked, deliveries, net.OK, net.ERR_IO_PENDING]

/-- Witness for C7: at the concrete synchronous result `ERR_FAILED` the
failure is delivered inside `Connect` and the authenticator is never
invoked. -/
theorem C7_synchronous_completion_witness :
    deliveries (Connect (initializedTransport 0 0 "chan"
        { nat_traversal := false, min_port := 0, max_port := 0 })
      net.ERR_FAILED).2 = [none]
    ∧ authenticateInvoked (Connect (initializedTransport 0 0 "chan"
        { nat_traversal := false, min_port := 0, max_port := 0 })
      net.ERR_FAILED).2 = false := by
  exact (C7_synchronous_completion 0 0 "chan"
    { nat_traversal := false, min_port := 0, max_port := 0 }
    net.ERR_FAILED).2.1 (by decide) (by decide)

/-- C4: after the transport reached `Connected` (success delivered), the
channel-destroyed event makes it delete itself (`none`); in any state in
which the stored callback has not yet been delivered — which covers every
state of a connect attempt before completion, as the last two conjuncts
show for the `Connecting` and `Authenticating` stages — the event never
triggers self-deletion. -/
theorem C4_self_deletion_on_channel_destroyed (nm sf : Nat) (name : String)
    (cfg : TransportConfig) (authSock : Nat) :
    OnChannelDestroyed (connectRun (initializedTransport nm sf name cfg)
        net.ERR_IO_PENDING net.OK net.OK (some authSock)).1 = none
    ∧ OnChannelDestroyed (connectRun (initializedTransport nm sf name cfg)
        net.OK net.OK net.OK (some authSock)).1 = none
    ∧ (∀ t : LibjingleStreamTransport,
        OnChannelDestroyed { t with callback_ := true }
          = some { t with callback_ := true })
    ∧ (Connect (initializedTransport nm sf name cfg)
        net.ERR_IO_PENDING).1.callback_ = true
    ∧ (OnTcpConnected (Connect (initializedTransport nm sf name cfg)
        net.ERR_IO_PENDING).1 net.OK).1.callback_ = true := by
  refine ⟨?_, ?_, fun t => ?_, ?_, ?_⟩ <;>
    simp [connectRun, Connect, OnTcpConnected, OnAuthenticationDone,
      NotifyConnectFailed, NotifyConnected, OnChannelDestroyed, is_connected,
      net.OK, net.ERR_IO_PENDING]

/-- C1: for every initialized Stream Transport and every `Connect` call —
whatever the synchronous result of the handshake, the asynchronous
handshake completion, and the authentication outcome, i.e. regardless of
which stage failed — exactly one completion (socket or null) is delivered
through the stored callback, and afterwards the callback slot is consumed
(reset to null), so it is never invoked again. -/
theorem C1_exactly_one_completion (nm sf : Nat) (name : String)
    (cfg : TransportConfig) (syncResult asyncResult authError : Int)
    (authSock : Nat) :
    (deliveries (connectRun (initializedTransport nm sf name cfg)
        syncResult asyncResult authError (some authSock)).2).length = 1
    ∧ (connectRun (initializedTransport nm sf name cfg)
        syncResult asyncResult authError (some authSock)).1.callback_
      = false := by
  by_cases hs : syncResult = net.ERR_IO_PENDING <;>
  by_cases ha : asyncResult = net.OK <;>
  by_cases hok : syncResult = net.OK <;>
  by_cases he : authError = net.OK <;>
  simp_all [connectRun, Connect, OnTcpConnected, OnAuthenticationDone,
    NotifyConnectFailed, NotifyConnected, deliveries, net.OK,
    net.ERR_IO_PENDING]

end protocol
end remoting
